import Mathlib

/-! Verification development for the PREDSTORM solar-wind forecasting core.

This file gives a shallow embedding of the parts of the source that the
checked properties talk about: the SatData container with its key schema
(data.py, class SatData), the PositionData container, the coordinate-frame
conversions convert_GSE_to_GSM and convert_RTN_to_GSE, the L1 propagation
corrections shift_time_to_L1 and shift_wind_to_L1, merge_Data, and the
analogue-ensemble sliding-window distance computation of predstorm_l1.py.

Modelling conventions:
  - Python floats are modelled by real numbers; where a claim is about IEEE
    NaN propagation the values are modelled by Option of a real number with
    none standing for NaN.
  - numpy arrays are Lean lists; in-bounds integer indexing is modelled with
    getD (default 0), valid under the length hypotheses of the theorems
    (an out-of-bounds index is a crash in the source).
  - External services (astropy julian dates, the heliosat trajectory query
    behind load_positions and get_l1_position) are passed in as explicit
    oracle arguments, matching the spec, which treats ephemeris and time
    services as external collaborators.
  - Exceptions raised by the source are modelled with Except String; the
    quote characters inside the original messages are dropped.
  - In-place mutation returning self is modelled by returning a new record.
-/

/-- One 3-component vector sample (a field vector or a position vector). -/
structure Vec3 where
  x : ℝ
  y : ℝ
  z : ℝ

namespace Vec3

/-- Componentwise sum of two vectors. -/
noncomputable def add (a b : Vec3) : Vec3 := ⟨a.x + b.x, a.y + b.y, a.z + b.z⟩

/-- Scalar times vector, as in numpy br*Xrtn. -/
noncomputable def smul (c : ℝ) (a : Vec3) : Vec3 := ⟨c * a.x, c * a.y, c * a.z⟩

/-- Vector divided by a scalar, as in numpy v/np.linalg.norm(v). -/
noncomputable def sdiv (a : Vec3) (c : ℝ) : Vec3 := ⟨a.x / c, a.y / c, a.z / c⟩

/-- Dot product, np.dot on two 3-vectors. -/
noncomputable def dot (a b : Vec3) : ℝ := a.x * b.x + a.y * b.y + a.z * b.z

/-- Cross product, np.cross on two 3-vectors. -/
noncomputable def cross (a b : Vec3) : Vec3 :=
  ⟨a.y * b.z - a.z * b.y, a.z * b.x - a.x * b.z, a.x * b.y - a.y * b.x⟩

/-- Sum of squared components. -/
noncomputable def normSq (a : Vec3) : ℝ := a.x ^ 2 + a.y ^ 2 + a.z ^ 2

/-- Euclidean norm, np.linalg.norm on a 3-vector. -/
noncomputable def norm (a : Vec3) : ℝ := Real.sqrt a.normSq

end Vec3

/-- Multiplication by the z-axis rotation matrix
[[cos a, sin a, 0], [-sin a, cos a, 0], [0, 0, 1]]
used for T1, t2z, S1, S2_omega and S2_theta in data.py. -/
noncomputable def rotZmul (a : ℝ) (v : Vec3) : Vec3 :=
  ⟨Real.cos a * v.x + Real.sin a * v.y,
   -Real.sin a * v.x + Real.cos a * v.y,
   v.z⟩

/-- Multiplication by the transpose of the z-axis rotation matrix,
np.matrix.transpose(T1) in convert_GSE_to_GSM. -/
noncomputable def rotZTmul (a : ℝ) (v : Vec3) : Vec3 :=
  ⟨Real.cos a * v.x - Real.sin a * v.y,
   Real.sin a * v.x + Real.cos a * v.y,
   v.z⟩

/-- Multiplication by the x-axis rotation matrix
[[1, 0, 0], [0, cos a, sin a], [0, -sin a, cos a]]
used for t2x, T3, S2_incl in data.py. -/
noncomputable def rotXmul (a : ℝ) (v : Vec3) : Vec3 :=
  ⟨v.x,
   Real.cos a * v.y + Real.sin a * v.z,
   -Real.sin a * v.y + Real.cos a * v.z⟩

/-! ## The data containers (data.py, classes SatData and PositionData)

The scalar type is a parameter: the frame conversions instantiate it with
the reals (they use trigonometry), while the claims about merging, the L1
radial correction and item assignment instantiate it with the rationals so
that concrete instances can be evaluated by the kernel. -/

/-- SatData.default_keys: the fixed positional key schema of the container. -/
def defaultKeys : List String :=
  ["time",
   "speed", "speedx", "density", "temp", "pdyn",
   "bx", "by", "bz", "btot",
   "br", "bt", "bn",
   "dst", "kp", "aurora", "ec", "ae"]

/-- Python dict lookup on an association list of named arrays. -/
def dictLookup {α : Type} (k : String) : List (String × α) → Option α
  | [] => none
  | kv :: rest => if kv.1 = k then some kv.2 else dictLookup k rest

/-- Python list.index: position of the first occurrence of k (length of the
list when k is absent, a case the source never reaches for valid keys). -/
def listIdxOf (k : String) : List String → ℕ
  | [] => 0
  | a :: rest => if a = k then 0 else listIdxOf k rest + 1

/-- Row index of a variable name in the positional data block. -/
def keyIndex (k : String) : ℕ := listIdxOf k defaultKeys

/-- SatData.empty_header, as a record. The FileVersion dict carries no data
relevant to any checked property and is left out of the model. -/
structure DataHeader (α : Type) where
  DataSource : String := ""
  SourceURL : String := ""
  SamplingRate : Option α := none
  ReferenceFrame : String := ""
  Instruments : List String := []

/-- PositionData.empty_header, as a record. -/
structure PosHeader where
  ReferenceFrame : String := ""
  CoordinateSystem : String := ""
  Units : String := ""
  Object : String := ""

/-- PositionData: three stacked coordinate rows plus metadata; coors is the
list of component names valid for the stored convention. -/
structure PositionData (α : Type) where
  positions : List (List α)
  h : PosHeader := {}
  coors : List String := []

namespace PositionData

/-- PositionData.__init__: checks the convention flag and fixes the
queryable component names. -/
def init {α : Type} (posdata : List (List α)) (postype : String) :
    Except String (PositionData α) :=
  if postype = "xyz" ∨ postype = "rlonlat" then
    .ok { positions := posdata,
          h := { CoordinateSystem := postype },
          coors := if postype = "xyz" then ["x", "y", "z"] else ["r", "lon", "lat"] }
  else
    .error "PositionData __init__: postype must be either xyz or rlonlat!"

/-- PositionData.__getitem__ for a string key: only the component names of
the stored convention are recognised. -/
def getitem {α : Type} (p : PositionData α) (var : String) : Except String (List α) :=
  if var ∈ p.coors then
    .ok (p.positions.getD (listIdxOf var p.coors) [])
  else
    .error ("PositionData object does not contain data under the key " ++ var ++ "!")

/-- Entry i of coordinate row j (positions[j][i]), with in-bounds indexing
modelled by a zero default. -/
def rowAt {α : Type} [Zero α] (p : PositionData α) (j i : ℕ) : α :=
  (p.positions.getD j []).getD i 0

end PositionData

/-- SatData: the positional data block (one row per default key), the active
variable list, the metadata header, the optional attached PositionData and
the source name.  The per-sample state classifier array of the source holds
no data touched by any checked property and is left out. -/
structure SatData (α : Type) where
  data : List (List α)
  source : Option String := none
  h : DataHeader α := {}
  pos : Option (PositionData α) := none
  vars : List String := []

namespace SatData

/-- SatData.__init__ from a dict of named arrays: unknown keys are rejected,
time is required, rows of zeros are reserved for absent keys, and the active
variable list is the input keys in schema order with time removed.  (The
empty-time warning of the source is a log line only and is not modelled.) -/
def init {α : Type} [Zero α] (input : List (String × List α))
    (source : Option String := none) (header : Option (DataHeader α) := none) :
    Except String (SatData α) :=
  match input.find? (fun kv => !(defaultKeys.contains kv.1)) with
  | some kv => .error ("Key " ++ kv.1 ++ " not implemented in SatData class!")
  | none =>
    if (input.map Prod.fst).contains "time" then
      let n := ((dictLookup "time" input).getD []).length
      let dt := defaultKeys.filter (fun k => (input.map Prod.fst).contains k)
      .ok { data := defaultKeys.map (fun k =>
              match dictLookup k input with
              | some arr => arr
              | none => List.replicate n 0),
            source := source,
            h := header.getD {},
            pos := none,
            vars := dt.erase "time" }
    else
      .error "Time variable is required for SatData object!"

/-- The stored row of a variable (self.data[default_keys.index(var)]). -/
def row {α : Type} (d : SatData α) (k : String) : List α :=
  d.data.getD (keyIndex k) []

/-- SatData.__getitem__ for a string key. -/
def getitem {α : Type} (d : SatData α) (var : String) : Except String (List α) :=
  if var ∈ d.vars ++ ["time"] then
    .ok (d.row var)
  else
    .error ("SatData object does not contain data under the key " ++ var ++ "!")

/-- SatData.__setitem__ for a string key: an active variable is overwritten;
an allowed but inactive variable is overwritten and appended to the active
list; an unknown key raises. -/
def setitem {α : Type} (d : SatData α) (var : String) (value : List α) :
    Except String (SatData α) :=
  if var ∈ d.vars then
    .ok { d with data := d.data.set (keyIndex var) value }
  else if var ∈ defaultKeys ∧ var ∉ d.vars then
    .ok { d with data := d.data.set (keyIndex var) value,
                 vars := d.vars ++ [var] }
  else
    .error ("SatData object does not contain the key " ++ var ++ "!")

/-- SatData.__len__: the length of the time row (self.data[0]). -/
def length {α : Type} (d : SatData α) : ℕ := (d.data.getD 0 []).length

end SatData

/-! ## Frame conversions (data.py, SatData.convert_GSE_to_GSM and
SatData.convert_RTN_to_GSE)

The per-sample julian date jd and the UT hour-of-day ut are produced in the
source by astropy.time and matplotlib num2date from the stored time axis;
both are external time services here passed in as per-index oracles. -/

/-- Astronomical unit in km (config.constants.AU). -/
noncomputable def AU : ℝ := 149597870.700

/-- Python float(int(x)): truncation towards zero. -/
noncomputable def pytrunc (x : ℝ) : ℝ := if 0 ≤ x then ((⌊x⌋ : ℤ) : ℝ) else ((⌈x⌉ : ℤ) : ℝ)

/-- mjd = float(int(jd - 2400000.5)). -/
noncomputable def mjdOf (jd : ℝ) : ℝ := pytrunc (jd - 2400000.5)

/-- T00 = (mjd - 51544.5)/36525.0. -/
noncomputable def t00Of (mjd : ℝ) : ℝ := (mjd - 51544.5) / 36525.0

/-- LAMBDA = 280.460 + 36000.772*T00 + 0.04107*UT. -/
noncomputable def lambdaSunOf (T00 ut : ℝ) : ℝ := 280.460 + 36000.772 * T00 + 0.04107 * ut

/-- M = 357.528 + 35999.050*T00 + 0.04107*UT. -/
noncomputable def mAnomalyOf (T00 ut : ℝ) : ℝ := 357.528 + 35999.050 * T00 + 0.04107 * ut

/-- lt2, the Sun longitude lambda of Hapgood eq. 5, in radians. -/
noncomputable def lt2Of (T00 ut : ℝ) : ℝ :=
  (lambdaSunOf T00 ut
    + (1.915 - 0.0048 * T00) * Real.sin (mAnomalyOf T00 ut * Real.pi / 180)
    + 0.020 * Real.sin (2 * mAnomalyOf T00 ut * Real.pi / 180)) * Real.pi / 180

/-- The dipole tilt angle psigsm of convert_GSE_to_GSM, per sample:
geomagnetic pole in GEO coordinates, rotated by T2*transpose(T1), then
arctan of the y/z component ratio. -/
noncomputable def psigsmOf (jd ut : ℝ) : ℝ :=
  let mjd := mjdOf jd
  let T00 := t00Of mjd
  let pgeo := 78.8 + 4.283 * ((mjd - 46066) / 365.25) * 0.01
  let lgeo := 289.1 - 1.413 * ((mjd - 46066) / 365.25) * 0.01
  let Qg : Vec3 := ⟨Real.cos (pgeo * Real.pi / 180) * Real.cos (lgeo * Real.pi / 180),
                    Real.cos (pgeo * Real.pi / 180) * Real.sin (lgeo * Real.pi / 180),
                    Real.sin (pgeo * Real.pi / 180)⟩
  let zeta := (100.461 + 36000.770 * T00 + 15.04107 * ut) * Real.pi / 180
  let lt2 := lt2Of T00 ut
  let et2 := (23.439 - 0.013 * T00) * Real.pi / 180
  let Qe := rotZmul lt2 (rotXmul et2 (rotZTmul zeta Qg))
  Real.arctan (Qe.y / Qe.z)

/-- The per-sample GSE to GSM transform: GSM = T3 * GSE with
T3 the x-rotation by -psigsm. -/
noncomputable def gseToGsmSample (jd ut : ℝ) (b : Vec3) : Vec3 :=
  rotXmul (-psigsmOf jd ut) b

/-- omega_node of convert_RTN_to_GSE, in radians. -/
noncomputable def omegaNodeOf (mjd : ℝ) : ℝ :=
  (73.6667 + 0.013958 * ((mjd + 3242) / 365.25)) * Real.pi / 180

/-- inclination_ecl = 7.25 degrees in radians. -/
noncomputable def inclinationEcl : ℝ := 7.25 * Real.pi / 180

/-- theta_node = arctan(cos(inclination)*tan(lt2 - omega_node)). -/
noncomputable def thetaNodeOf (lt2 omega : ℝ) : ℝ :=
  Real.arctan (Real.cos inclinationEcl * Real.tan (lt2 - omega))

/-- np.mod for a positive modulus: x - m*floor(x/m). -/
noncomputable def npMod (x m : ℝ) : ℝ := x - m * ((⌊x / m⌋ : ℤ) : ℝ)

/-- lambda_omega_deg: the node-corrected solar longitude, mod 360, in degrees. -/
noncomputable def lambdaOmegaDegOf (lt2 omega : ℝ) : ℝ :=
  npMod (lt2 - omega) (2 * Real.pi) * 180 / Real.pi

/-- The quadrant-disambiguation condition of the source: the two angles (in
degrees) lie strictly within 180 degrees of each other, i.e. they fall in a
common 180-degree-wide quadrant of the circle. -/
noncomputable def sameHalfQuadrant (a b : ℝ) : Prop := |a - b| < 180

/-- theta_node after the quadrant correction: add pi when the
node-corrected longitude and theta fall in the same 180-degree quadrant. -/
noncomputable def thetaCorrectedOf (lt2 omega : ℝ) : ℝ :=
  let theta := thetaNodeOf lt2 omega
  if |lambdaOmegaDegOf lt2 omega - theta * 180 / Real.pi| < 180 then theta + Real.pi
  else theta

/-- The per-sample HEEQ to GSE transform of convert_RTN_to_GSE:
HEE = S1 * (S2_omega * S2_incl * S2_theta) * HEEQ, then the sign of the
first two components is flipped to obtain GSE. -/
noncomputable def heeqToGseSample (jd ut : ℝ) (b : Vec3) : Vec3 :=
  let mjd := mjdOf jd
  let T00 := t00Of mjd
  let lt2 := lt2Of T00 ut
  let omega := omegaNodeOf mjd
  let thetaF := thetaCorrectedOf lt2 omega
  let HEE := rotZmul (lt2 + Real.pi)
               (rotZmul (-omega) (rotXmul (-inclinationEcl) (rotZmul (-thetaF) b)))
  ⟨-HEE.x, -HEE.y, HEE.z⟩

/-- sphere2cart(r, phi, theta) of data.py. -/
noncomputable def sphere2cart (r phi theta : ℝ) : Vec3 :=
  ⟨r * Real.cos theta * Real.cos phi,
   r * Real.cos theta * Real.sin phi,
   r * Real.sin theta⟩

/-- Index of the last entry of xs strictly below t:
np.where(pos_tnum < t)[-1][-1] of the old-method branch.  An empty match is
an IndexError in the source; it is modelled by index 0 and never reached
under the hypotheses of the theorems. -/
noncomputable def lastIdxLt (xs : List ℝ) (t : ℝ) : ℕ :=
  (((List.range xs.length).filter (fun j => decide (xs.getD j 0 < t)))).getLastD 0

/-- The spacecraft position used for sample i of convert_RTN_to_GSE: the
old method looks the position up by time from the argument arrays, the new
method reads the attached PositionData (spherical entries are converted
with sphere2cart and scaled from km to AU, cartesian entries are scaled to
AU).  An absent PositionData in the new-method branch is an AttributeError
in the source and is excluded by the guard of convert_RTN_to_GSE. -/
noncomputable def rtnPosAt (posObj : List (List ℝ)) (posTnum : List ℝ)
    (pos : Option (PositionData ℝ)) (time : List ℝ) (i : ℕ) : Vec3 :=
  if 0 < posObj.length ∧ 0 < posTnum.length then
    let tind := lastIdxLt posTnum (time.getD i 0)
    sphere2cart ((posObj.getD 0 []).getD tind 0)
                ((posObj.getD 1 []).getD tind 0)
                ((posObj.getD 2 []).getD tind 0)
  else
    match pos with
    | some p =>
      if p.h.CoordinateSystem = "rlonlat" then
        let v := sphere2cart (p.rowAt 0 i) (p.rowAt 1 i) (p.rowAt 2 i)
        ⟨v.x / AU, v.y / AU, v.z / AU⟩
      else
        ⟨p.rowAt 0 i / AU, p.rowAt 1 i / AU, p.rowAt 2 i / AU⟩
    | none => ⟨0, 0, 0⟩

/-- The per-sample RTN to HEEQ projection: the local orthonormal basis
Xrtn, Yrtn, Zrtn is built from the normalised position vector and the solar
rotation axis, and the HEEQ components are the projections of
br*Xrtn + bt*Yrtn + bn*Zrtn onto the HEEQ axes. -/
noncomputable def rtnToHeeqSample (p : Vec3) (b : Vec3) : Vec3 :=
  let Xrtn := p.sdiv p.norm
  let cZX := Vec3.cross ⟨0, 0, 1⟩ Xrtn
  let Yrtn := cZX.sdiv cZX.norm
  let cXY := Vec3.cross Xrtn Yrtn
  let Zrtn := cXY.sdiv cXY.norm
  (Vec3.smul b.x Xrtn).add ((Vec3.smul b.y Yrtn).add (Vec3.smul b.z Zrtn))

/-- SatData.convert_GSE_to_GSM: per sample, rotate (bx,by,bz) about x by
-psigsm; the three component rows are overwritten with the results.  The
source computes h.ReferenceFrame.replace(GSE, GSM) but discards the result
of str.replace (strings are immutable), so the header is left unchanged. -/
noncomputable def convert_GSE_to_GSM (jd ut : ℕ → ℝ) (d : SatData ℝ) :
    Except String (SatData ℝ) := do
  let time ← d.getitem "time"
  let bxRow ← d.getitem "bx"
  let byRow ← d.getitem "by"
  let bzRow ← d.getitem "bz"
  let n := time.length
  let gsm := (List.range n).map (fun i =>
    gseToGsmSample (jd i) (ut i) ⟨bxRow.getD i 0, byRow.getD i 0, bzRow.getD i 0⟩)
  let d1 ← d.setitem "bx" (gsm.map Vec3.x)
  let d2 ← d1.setitem "by" (gsm.map Vec3.y)
  let d3 ← d2.setitem "bz" (gsm.map Vec3.z)
  pure d3

/-- The body of convert_RTN_to_GSE once the position guard has passed:
projects (br,bt,bn) to HEEQ per sample, applies the per-sample HEEQ to GSE
transform (the two source loops run over the same index range and are fused
here), overwrites the bx,by,bz rows, and appends -GSE to the reference
frame header. -/
noncomputable def convRtnBody (posObj : List (List ℝ)) (posTnum : List ℝ)
    (jd ut : ℕ → ℝ) (d : SatData ℝ) : Except String (SatData ℝ) := do
  let time ← d.getitem "time"
  let brRow ← d.getitem "br"
  let btRow ← d.getitem "bt"
  let bnRow ← d.getitem "bn"
  let n := time.length
  let gse := (List.range n).map (fun i =>
    heeqToGseSample (jd i) (ut i)
      (rtnToHeeqSample (rtnPosAt posObj posTnum d.pos time i)
        ⟨brRow.getD i 0, btRow.getD i 0, bnRow.getD i 0⟩))
  let d1 ← d.setitem "bx" (gse.map Vec3.x)
  let d2 ← d1.setitem "by" (gse.map Vec3.y)
  let d3 ← d2.setitem "bz" (gse.map Vec3.z)
  pure { d3 with h := { d3.h with ReferenceFrame := d3.h.ReferenceFrame ++ "-GSE" } }

/-- SatData.convert_RTN_to_GSE: refuses when no position source at all is
available (no position arrays passed and no attached PositionData),
otherwise runs the conversion body. -/
noncomputable def convert_RTN_to_GSE (posObj : List (List ℝ)) (posTnum : List ℝ)
    (jd ut : ℕ → ℝ) (d : SatData ℝ) : Except String (SatData ℝ) :=
  match posObj, posTnum, d.pos with
  | [], [], none =>
    .error "Load position data (SatData.load_position_data()) before calling convert_RTN_to_GSE()!"
  | _, _, _ => convRtnBody posObj posTnum jd ut d

/-! ## L1 propagation corrections (data.py, SatData.shift_time_to_L1 with
method new, and SatData.shift_wind_to_L1)

get_l1_position is an external ephemeris query; its per-sample radial
distances are passed in as the list l1r.  load_positions queries the
heliosat trajectory service; the PositionData it would build is passed in
as loadedPos. -/

/-- np.round(x, 3): rounding to three decimals.  Mathlib round is
half-up while numpy rounds ties to even; the two differ only on exact
ties, which no checked property depends on. -/
noncomputable def pyround3 (x : ℝ) : ℝ := ((round (x * 1000) : ℤ) : ℝ) / 1000

/-- The warning logged by shift_time_to_L1 when no position data is attached. -/
def shiftTimeWarning : String :=
  "Loading position data (SatData.load_positions()) for shift_time_to_L1()!"

/-- The body of shift_time_to_L1 (method new) once a PositionData p is in
hand: per sample, the corotation lag |lon|*(180/pi)/(360/sun_syn) plus the
rounded Parker-spiral lag from the radial distance difference and the local
speed are added to the stored time row. -/
noncomputable def shiftTimeCore (p : PositionData ℝ) (l1r : List ℝ) (sunSyn : ℝ)
    (d : SatData ℝ) : Except String (SatData ℝ) := do
  let lonRow ← p.getitem "lon"
  let rRow ← p.getitem "r"
  let time ← d.getitem "time"
  let speed ← d.getitem "speed"
  let timelagL1 := lonRow.map (fun lon => |lon * 180 / Real.pi| / (360 / sunSyn))
  let timelagDiffR := (List.range l1r.length).map (fun i =>
    pyround3 ((-360 / (sunSyn * 86400)) * (rRow.getD i 0 - l1r.getD i 0)
      / speed.getD i 0 / (360 / sunSyn)))
  let newTime := List.zipWith (· + ·) (List.zipWith (· + ·) time timelagL1) timelagDiffR
  .ok { d with data := d.data.set 0 newTime }

/-- SatData.shift_time_to_L1, method new: when no PositionData is attached
a warning is logged and the positions are loaded on demand (and stay
attached); the lag computation then proceeds.  The second component is the
list of logged warnings. -/
noncomputable def shift_time_to_L1 (loadedPos : PositionData ℝ) (l1r : List ℝ)
    (sunSyn : ℝ) (d : SatData ℝ) : Except String (SatData ℝ) × List String :=
  match d.pos with
  | none =>
    (shiftTimeCore loadedPos l1r sunSyn { d with pos := some loadedPos },
     [shiftTimeWarning])
  | some p => (shiftTimeCore p l1r sunSyn d, [])

/-- The fixed list of variables scaled by shift_wind_to_L1. -/
def shiftVarList : List String := ["btot", "br", "bt", "bn", "bx", "by", "bz", "density"]

/-- The error produced by accessing self.pos.h when self.pos is None:
shift_wind_to_L1 performs no check of its own, so a missing PositionData is
an AttributeError. -/
def attrErrNoPos : String := "AttributeError: NoneType object has no attribute h"

/-- One step of the shift_wind_to_L1 loop: self[var] = self[var]*corr_factor. -/
def shiftWindStep (corr : List ℚ) (acc : SatData ℚ) (var : String) :
    Except String (SatData ℚ) := do
  let rowV ← acc.getitem var
  acc.setitem var (List.zipWith (fun a c => a * c) rowV corr)

/-- SatData.shift_wind_to_L1: reads the attached position radii (an
AttributeError when none are attached), forms the per-sample correction
factor (L1 distance / monitor distance)^(-2), and multiplies each active
variable of the shift list by it. -/
def shift_wind_to_L1 (l1r : List ℚ) (d : SatData ℚ) : Except String (SatData ℚ) :=
  match d.pos with
  | none => .error attrErrNoPos
  | some p => do
    let rRow ← p.getitem "r"
    let corr := List.zipWith (fun a b => (a / b) ^ (-2 : ℤ)) l1r rRow
    (shiftVarList.filter (fun v => d.vars.contains v)).foldlM (shiftWindStep corr) d

/-! ## Merging (data.py, merge_Data) -/

/-- np.arange(a, b, step) for a positive step: ceil((b-a)/step) points
starting at a. -/
def npArange (a b step : ℚ) : List ℚ :=
  (List.range (((b - a) / step).ceil.toNat)).map (fun k => a + (k : ℚ) * step)

/-- np.interp(x, xp, fp): linear interpolation with clamping at both ends.
Equal or unordered xp entries are a caller error in the source and are
excluded by the hypotheses of the theorems. -/
def npInterp (x : ℚ) : List ℚ → List ℚ → ℚ
  | x0 :: x1 :: xs, f0 :: f1 :: fs =>
    if x < x0 then f0
    else if x < x1 then f0 + (f1 - f0) * (x - x0) / (x1 - x0)
    else npInterp x (x1 :: xs) (f1 :: fs)
  | [x0], [f0] => if x < x0 then f0 else f0
  | _, _ => 0

/-- merge_Data(satdata1, satdata2, keys): checks the keys against dataset 2,
derives the timestep from the declared sampling rate of dataset 1 (the source
compares without abs), counts the continuation points with
np.arange(t1_last + step, t2_last, step), then builds the continuation time
axis as t1_last + np.arange(1, n_timesteps)*step — one point fewer than
n_timesteps — interpolates dataset 2 onto it, concatenates, and merges the
metadata.  The DataSource string of the source embeds num2date-formatted
date ranges (an external formatting service); here the two names are joined
directly. -/
def merge_Data (satdata1 satdata2 : SatData ℚ) (keys : Option (List String)) :
    Except String (SatData ℚ) := do
  let ks := match keys with
    | none => satdata1.vars.filter (fun k => satdata2.vars.contains k)
    | some ks => ks
  match ks.find? (fun k => !(satdata2.vars.contains k)) with
  | some k => .error ("Dataset1 contains key (" ++ k ++ ") not available in Dataset2!")
  | none => do
    let sr ← match satdata1.h.SamplingRate with
      | some sr => pure sr
      | none => .error "TypeError: SamplingRate is None"
    let timestep : ℚ :=
      if sr - 1/24 < 1/10000 then 1/24
      else if sr - 1/(24*60) < 1/10000 then 1/(24*60)
      else sr
    let t1 ← satdata1.getitem "time"
    let t2 ← satdata2.getitem "time"
    let t1last := t1.getLastD 0
    let t2last := t2.getLastD 0
    let nTimesteps := (npArange (t1last + timestep) t2last timestep).length
    let newTime := (List.range' 1 (nTimesteps - 1)).map (fun k => t1last + (k : ℚ) * timestep)
    let rows ← ks.mapM (fun k => do
      let a1 ← satdata1.getitem k
      let a2 ← satdata2.getitem k
      pure (k, a1 ++ newTime.map (fun x => npInterp x t2 a2)))
    let src : Option String := match satdata1.source, satdata2.source with
      | some s1, some s2 => some (s1 ++ "+" ++ s2)
      | _, _ => none
    let md ← SatData.init (("time", t1 ++ newTime) :: rows) src none
    pure { md with h := { md.h with
      DataSource := satdata1.h.DataSource ++ " & " ++ satdata2.h.DataSource,
      SamplingRate := some timestep,
      ReferenceFrame := satdata1.h.ReferenceFrame,
      Instruments := satdata1.h.Instruments ++ satdata2.h.Instruments } }

/-! ## Analogue-ensemble sliding-window distances (predstorm_l1.py,
section 2, the dist_count arrays)

The script computes, for each start offset i into the training range,
np.sqrt(np.sum((noww - training[inds:inds+deltat+1])**2))/np.size(noww)
identically for btot, bx, by, bz, speed and density; one definition over
the relevant variable row covers all six. -/

/-- The slice xs[a:b] of a numpy array. -/
def npSlice {α : Type} (xs : List α) (a b : ℕ) : List α := (xs.take b).drop a

/-- The per-start-index distance entry of the sliding-window analysis:
dist_count[i] = sqrt(sum((noww - slice)**2))/size(noww) with
slice = omniVar[startindex+i : startindex+i+deltat+1]. -/
noncomputable def dist_count (omniVar noww : List ℝ) (startindex deltat i : ℕ) : ℝ :=
  Real.sqrt (((noww.zip (npSlice omniVar (startindex + i) (startindex + i + deltat + 1))).map
    (fun q => (q.1 - q.2) ^ 2)).sum) / noww.length

/-- The value the specification describes (root-mean-square deviation): the
sum of squared differences divided by the window length, then square-rooted.
Stated from the specification text for comparison with dist_count. -/
noncomputable def rmsDeviation (noww hist : List ℝ) : ℝ :=
  Real.sqrt ((((noww.zip hist).map (fun q => (q.1 - q.2) ^ 2)).sum) / noww.length)

/-! NaN-aware model of the same computation: a float is an Option of a
real, none standing for NaN, and every numpy operation propagates NaN. -/

/-- Float subtraction with NaN propagation. -/
noncomputable def fsub : Option ℝ → Option ℝ → Option ℝ
  | some a, some b => some (a - b)
  | _, _ => none

/-- Float squaring with NaN propagation. -/
noncomputable def fsq : Option ℝ → Option ℝ
  | some a => some (a ^ 2)
  | none => none

/-- Float addition with NaN propagation. -/
noncomputable def fadd : Option ℝ → Option ℝ → Option ℝ
  | some a, some b => some (a + b)
  | _, _ => none

/-- np.sum with NaN propagation. -/
noncomputable def fsum (l : List (Option ℝ)) : Option ℝ := l.foldr fadd (some 0)

/-- np.sqrt with NaN propagation. -/
noncomputable def fsqrt : Option ℝ → Option ℝ
  | some a => some (Real.sqrt a)
  | none => none

/-- Division of a float by an array size, with NaN propagation. -/
noncomputable def fdivN : Option ℝ → ℕ → Option ℝ
  | some a, n => some (a / (n : ℝ))
  | none, _ => none

/-- The sliding-window distance entry on NaN-carrying data: exactly the
formula of dist_count with every operation propagating NaN. -/
noncomputable def dist_count_nan (omniVar noww : List (Option ℝ))
    (startindex deltat i : ℕ) : Option ℝ :=
  fdivN (fsqrt (fsum
    ((noww.zip (npSlice omniVar (startindex + i) (startindex + i + deltat + 1))).map
      (fun q => fsq (fsub q.1 q.2))))) noww.length

/-- The NaN-excluding distance the specification describes: pairs with a
NaN on either side are dropped, and both the sum and the normalising length
come from the count of valid pairs (a window with no valid pair is skipped
entirely).  Stated from the specification text for comparison with
dist_count_nan. -/
noncomputable def nanExcludedRms (noww hist : List (Option ℝ)) : Option ℝ :=
  let valid := (noww.zip hist).filterMap (fun q =>
    match q.1, q.2 with
    | some a, some b => some ((a - b) ^ 2)
    | _, _ => none)
  if valid.length = 0 then none
  else some (Real.sqrt (valid.sum / (valid.length : ℝ)))

/-! ## Concrete containers used by the witnesses and counterexamples -/

/-- Unwraps a successfully constructed container (all the concrete inputs
below construct successfully). -/
def fromInit {α : Type} (e : Except String (SatData α)) : SatData α :=
  match e with
  | .ok d => d
  | .error _ => { data := [] }

/-- Unwraps a successfully constructed PositionData. -/
def fromInitPos {α : Type} (e : Except String (PositionData α)) : PositionData α :=
  match e with
  | .ok p => p
  | .error _ => { positions := [] }

/-- A one-sample GSE container with field (3,4,0) and frame label GSE. -/
noncomputable def dGseEx : SatData ℝ :=
  { fromInit (SatData.init [("time", [0]), ("bx", [3]), ("by", [4]), ("bz", [0])]) with
    h := { ReferenceFrame := "GSE" } }

/-- A one-sample spherical position at radius 1, longitude 0, latitude 0. -/
def posRtnEx : PositionData ℝ :=
  fromInitPos (PositionData.init [[1], [0], [0]] "rlonlat")

/-- A one-sample RTN container with field (3,4,0) and an attached position. -/
noncomputable def dRtnEx : SatData ℝ :=
  { fromInit (SatData.init [("time", [0]), ("br", [3]), ("bt", [4]), ("bn", [0])]) with
    pos := some posRtnEx }

/-- A rational two-sample monitor container with density 10 and speed 400,
with an attached position at radius 2 (twice the L1 distance used below). -/
def dWindEx : SatData ℚ :=
  { fromInit (SatData.init
      [("time", [0, 1]), ("speed", [400, 400]), ("density", [10, 10])]) with
    pos := some (fromInitPos (PositionData.init [[2, 2], [0, 0], [0, 0]] "rlonlat")) }

/-- A rational two-sample container with no attached position. -/
def dNoPosQ : SatData ℚ :=
  fromInit (SatData.init [("time", [0, 1]), ("density", [10, 10])])

/-- Merge input A: hourly samples at hours 0..10 (sampling rate 1 hour). -/
def mergeA : SatData ℚ :=
  { fromInit (SatData.init
      [("time", [0, 1, 2, 3, 4, 5, 6, 7, 8, 9, 10]),
       ("speed", [400, 400, 400, 400, 400, 400, 400, 400, 400, 400, 400])]) with
    h := { SamplingRate := some 1 } }

/-- Merge input B: hourly samples at hours 5..20 with the same values. -/
def mergeB : SatData ℚ :=
  fromInit (SatData.init
    [("time", [5, 6, 7, 8, 9, 10, 11, 12, 13, 14, 15, 16, 17, 18, 19, 20]),
     ("speed", [400, 400, 400, 400, 400, 400, 400, 400, 400, 400, 400, 400, 400, 400, 400, 400])])

/-- A rational container built from time and bx rows, for the item
assignment claim. -/
def dSetEx : SatData ℚ :=
  fromInit (SatData.init [("time", [0, 1]), ("bx", [5, 6])])

/-- The container produced by the GSE to GSM conversion of dGseEx at fixed
time oracles (used by the magnitude witness). -/
noncomputable def dGseGsmEx : SatData ℝ :=
  fromInit (convert_GSE_to_GSM (fun _ => 2450000.6) (fun _ => 12) dGseEx)

/-- The container produced by the RTN to GSE conversion of dRtnEx at fixed
time oracles (used by the magnitude witness). -/
noncomputable def dRtnGseEx : SatData ℝ :=
  fromInit (convert_RTN_to_GSE [] [] (fun _ => 2450000.6) (fun _ => 12) dRtnEx)

/-! ## General lemmas about the container operations -/

theorem normSq_rotZmul (a : ℝ) (v : Vec3) : (rotZmul a v).normSq = v.normSq := by
  simp only [rotZmul, Vec3.normSq]
  linear_combination (v.x ^ 2 + v.y ^ 2) * Real.sin_sq_add_cos_sq a

theorem normSq_rotZTmul (a : ℝ) (v : Vec3) : (rotZTmul a v).normSq = v.normSq := by
  simp only [rotZTmul, Vec3.normSq]
  linear_combination (v.x ^ 2 + v.y ^ 2) * Real.sin_sq_add_cos_sq a

theorem normSq_rotXmul (a : ℝ) (v : Vec3) : (rotXmul a v).normSq = v.normSq := by
  simp only [rotXmul, Vec3.normSq]
  linear_combination (v.y ^ 2 + v.z ^ 2) * Real.sin_sq_add_cos_sq a

/-- Expansion of the squared norm of a linear combination over a basis whose
pairwise dot products are known. -/
theorem normSq_basis_comb (u v w : Vec3) (a b c : ℝ)
    (huu : u.dot u = 1) (hvv : v.dot v = 1) (hww : w.dot w = 1)
    (huv : u.dot v = 0) (huw : u.dot w = 0) (hvw : v.dot w = 0) :
    ((Vec3.smul a u).add ((Vec3.smul b v).add (Vec3.smul c w))).normSq
      = a ^ 2 + b ^ 2 + c ^ 2 := by
  simp only [Vec3.add, Vec3.smul, Vec3.normSq, Vec3.dot] at *
  linear_combination a ^ 2 * huu + b ^ 2 * hvv + c ^ 2 * hww
    + (2 * a * b) * huv + (2 * a * c) * huw + (2 * b * c) * hvw

theorem bind_ok_eq {ε α β : Type} (a : α) (f : α → Except ε β) :
    (Except.ok a >>= f) = f a := rfl

theorem bind_error_eq {ε α β : Type} (e : ε) (f : α → Except ε β) :
    ((Except.error e : Except ε α) >>= f) = .error e := rfl

theorem getitem_ok_row {α : Type} {d : SatData α} {v : String} {r : List α}
    (h : d.getitem v = .ok r) : r = d.row v := by
  unfold SatData.getitem at h
  split at h
  · exact (Except.ok.inj h).symm
  · simp at h

theorem setitem_defaultKey_ok {α : Type} (d : SatData α) (v : String) (val : List α)
    (hv : v ∈ defaultKeys) :
    d.setitem v val = .ok { d with data := d.data.set (keyIndex v) val,
                                   vars := if v ∈ d.vars then d.vars
                                           else d.vars ++ [v] } := by
  unfold SatData.setitem
  by_cases h : v ∈ d.vars
  · rw [if_pos h, if_pos h]
  · rw [if_neg h, if_pos ⟨hv, h⟩, if_neg h]

theorem defaultKeys_nodup : defaultKeys.Nodup := by decide

theorem init_time_not_in_vars {α : Type} [Zero α] {input : List (String × List α)}
    {src : Option String} {hdr : Option (DataHeader α)} {d : SatData α}
    (h : SatData.init input src hdr = .ok d) : "time" ∉ d.vars := by
  unfold SatData.init at h
  split at h
  · simp at h
  · split at h
    · cases Except.ok.inj h
      exact (defaultKeys_nodup.filter _).not_mem_erase
    · simp at h

/-! ## Claim theorems -/

/-- C3: in the HEEQ-to-HEE step of convert_RTN_to_GSE, 180 degrees (pi) is
added to the computed theta before its rotation matrix is built exactly
when the node-corrected solar longitude (lambda minus omega, mod 360, in
degrees) and theta (in degrees) fall within a common 180-degree-wide
quadrant, i.e. differ by strictly less than 180 degrees. -/
theorem c3_theta_quadrant_rule (lt2 omega : ℝ) :
    thetaCorrectedOf lt2 omega = thetaNodeOf lt2 omega + Real.pi ↔
      sameHalfQuadrant (lambdaOmegaDegOf lt2 omega)
        (thetaNodeOf lt2 omega * 180 / Real.pi) := by
  simp only [thetaCorrectedOf, sameHalfQuadrant]
  split
  next h => exact ⟨fun _ => h, fun _ => rfl⟩
  next h =>
    constructor
    · intro hc
      exfalso
      have hpi := Real.pi_pos
      linarith [hc]
    · intro hc
      exact absurd hc h

/-- C5: calling convert_RTN_to_GSE with no position arrays passed and no
attached PositionData fails immediately with the descriptive
load-position-data-first error; no converted container is produced. -/
theorem c5_missing_position_refused (jd ut : ℕ → ℝ) (d : SatData ℝ)
    (h : d.pos = none) :
    convert_RTN_to_GSE [] [] jd ut d =
      .error "Load position data (SatData.load_position_data()) before calling convert_RTN_to_GSE()!" := by
  unfold convert_RTN_to_GSE
  rw [h]

theorem c5_witness :
    dGseEx.pos = none ∧
    convert_RTN_to_GSE [] [] (fun _ => 0) (fun _ => 0) dGseEx =
      .error "Load position data (SatData.load_position_data()) before calling convert_RTN_to_GSE()!" :=
  ⟨rfl, c5_missing_position_refused (fun _ => 0) (fun _ => 0) dGseEx rfl⟩

/-- C4: evaluation of the frame-label updates at a concrete container.  The
source line h.ReferenceFrame.replace(GSE, GSM) discards the value returned
by str.replace, so after convert_GSE_to_GSM the stored label is still GSE,
against the claim that it becomes GSM; convert_RTN_to_GSE does append -GSE
as claimed. -/
theorem c4_header_update_behaviour :
    (convert_GSE_to_GSM (fun _ => 2450000.6) (fun _ => 12) dGseEx).map
        (fun d2 => d2.h.ReferenceFrame) = .ok "GSE" ∧
    (convert_RTN_to_GSE [] [] (fun _ => 2450000.6) (fun _ => 12) dRtnEx).map
        (fun d2 => d2.h.ReferenceFrame) = .ok "-GSE" :=
  ⟨rfl, rfl⟩

/-- C6 counterexample: shift_wind_to_L1 on a container with no attached
PositionData does not load positions on demand; it fails at once with an
attribute error (self.pos.h with self.pos None), refuting the claim that
both L1 corrections load position data on demand with a logged warning. -/
theorem c6_counterexample : shift_wind_to_L1 [] dNoPosQ = .error attrErrNoPos := rfl

/-- C6 amended: only shift_time_to_L1 (new method) loads position data on
demand with the logged warning and proceeds with the loaded positions
attached; shift_wind_to_L1 performs no check and fails with an attribute
error whenever no PositionData is attached. -/
theorem c6_amended_on_demand :
    (∀ (loadedPos : PositionData ℝ) (l1r : List ℝ) (sunSyn : ℝ) (d : SatData ℝ),
      d.pos = none →
      (shift_time_to_L1 loadedPos l1r sunSyn d).2 = [shiftTimeWarning] ∧
      (shift_time_to_L1 loadedPos l1r sunSyn d).1 =
        shiftTimeCore loadedPos l1r sunSyn { d with pos := some loadedPos }) ∧
    (∀ (l1r : List ℚ) (d : SatData ℚ), d.pos = none →
      shift_wind_to_L1 l1r d = .error attrErrNoPos) := by
  constructor
  · intro loadedPos l1r sunSyn d h
    unfold shift_time_to_L1
    rw [h]
    exact ⟨rfl, rfl⟩
  · intro l1r d h
    unfold shift_wind_to_L1
    rw [h]

theorem c6_amended_witness :
    dGseEx.pos = none ∧ dNoPosQ.pos = none ∧
    (shift_time_to_L1 posRtnEx [] 26.24 dGseEx).2 = [shiftTimeWarning] ∧
    shift_wind_to_L1 [] dNoPosQ = .error attrErrNoPos :=
  ⟨rfl, rfl, (c6_amended_on_demand.1 posRtnEx [] 26.24 dGseEx rfl).1,
   c6_amended_on_demand.2 [] dNoPosQ rfl⟩

/-- C10: on a container built by the constructor, assigning to the time key
does not raise: time is a default key removed from the active-variable list
at construction, so the assignment takes the activation branch, overwrites
row 0 (the stored time row) and appends time to the active-variable list,
after which time is a member of vars, the list every vars-iterating
operation (interp_nans, interp_to_time) draws its keys from. -/
theorem c10_time_setitem_activates {α : Type} [Zero α]
    (input : List (String × List α)) (src : Option String)
    (hdr : Option (DataHeader α)) (d : SatData α) (v : List α)
    (h : SatData.init input src hdr = .ok d) (_hlen : v.length = d.length) :
    d.setitem "time" v =
      .ok { d with data := d.data.set 0 v, vars := d.vars ++ ["time"] } ∧
    ∀ d2, d.setitem "time" v = .ok d2 → "time" ∈ d2.vars := by
  have hnv : "time" ∉ d.vars := init_time_not_in_vars h
  have hstep : d.setitem "time" v =
      .ok { d with data := d.data.set 0 v, vars := d.vars ++ ["time"] } := by
    unfold SatData.setitem
    rw [if_neg hnv, if_pos ⟨by decide, hnv⟩]
    rfl
  refine ⟨hstep, fun d2 h2 => ?_⟩
  rw [hstep] at h2
  cases Except.ok.inj h2
  simp

theorem c10_witness :
    SatData.init [("time", [(0:ℚ), 1]), ("bx", [5, 6])] none none = .ok dSetEx ∧
    ([(9:ℚ), 9] : List ℚ).length = dSetEx.length ∧
    dSetEx.setitem "time" [9, 9] =
      .ok { dSetEx with data := dSetEx.data.set 0 [9, 9],
                        vars := dSetEx.vars ++ ["time"] } :=
  ⟨rfl, rfl,
   (c10_time_setitem_activates [("time", [0, 1]), ("bx", [5, 6])] none none
      dSetEx [9, 9] rfl rfl).1⟩

/-! ## Lemmas for the sliding-window distance claims -/

theorem npSlice_length {α : Type} (xs : List α) (a b : ℕ) :
    (npSlice xs a b).length = min b xs.length - a := by
  simp [npSlice]

theorem npSlice_getD {α : Type} [Inhabited α] (xs : List α) (a b j : ℕ) (d : α)
    (hj : a + j < b) :
    (npSlice xs a b).getD j d = xs.getD (a + j) d := by
  unfold npSlice
  rw [List.getD_eq_getD_get?, List.getD_eq_getD_get?, List.get?_eq_getElem?,
    List.get?_eq_getElem?, List.getElem?_drop, List.getElem?_take, if_pos hj]

theorem sum_sq_zip_eq :
    ∀ (xs ys : List ℝ),
      ((xs.zip ys).map (fun q => (q.1 - q.2) ^ 2)).sum
        = ∑ j ∈ Finset.range (min xs.length ys.length),
            (xs.getD j 0 - ys.getD j 0) ^ 2
  | [], ys => by simp
  | x :: xs, [] => by simp
  | x :: xs, y :: ys => by
    rw [List.zip_cons_cons, List.map_cons, List.sum_cons, sum_sq_zip_eq xs ys,
      List.length_cons, List.length_cons, Nat.succ_min_succ, Finset.sum_range_succ']
    simp only [List.getD_cons_succ, List.getD_cons_zero]
    exact add_comm _ _

/-- C1 counterexample: for the now window [0,3] against the historical
window [0,0] (window length 2), the computed distance sqrt(9)/2 = 1.5
differs from the claimed root-mean-square deviation sqrt(9/2). -/
theorem c1_counterexample :
    dist_count [0, 0] [0, 3] 0 1 0 ≠ rmsDeviation [0, 3] (npSlice [0, 0] 0 2) := by
  have h1 : dist_count [0, 0] [0, 3] 0 1 0 = Real.sqrt (((0:ℝ) - 0) ^ 2 + (((3:ℝ) - 0) ^ 2 + 0)) / ((2:ℕ) : ℝ) := rfl
  have h2 : rmsDeviation [0, 3] (npSlice [0, 0] 0 2)
      = Real.sqrt ((((0:ℝ) - 0) ^ 2 + (((3:ℝ) - 0) ^ 2 + 0)) / ((2:ℕ) : ℝ)) := rfl
  rw [h1, h2]
  have h3 : (((0:ℝ) - 0) ^ 2 + (((3:ℝ) - 0) ^ 2 + 0)) = 9 := by norm_num
  rw [h3]
  have h4 : Real.sqrt 9 = 3 := by
    rw [show (9:ℝ) = 3 ^ 2 by norm_num]
    exact Real.sqrt_sq (by norm_num)
  rw [h4]
  intro hc
  have h5 : ((9:ℝ) / ((2:ℕ) : ℝ)) = (3 / ((2:ℕ) : ℝ)) ^ 2 := by
    rw [hc]
    exact (Real.sq_sqrt (by positivity)).symm
  norm_num at h5

/-- C1 amended: the per-variable distance value at start index i equals the
square root of the sum of squared differences at matching offsets, divided
by the window length (not the RMS deviation: the division by the length
happens outside the square root, giving RMS/sqrt(length); the induced
ranking of start indices is the same). -/
theorem c1_amended_dist_formula (omniVar noww : List ℝ) (startindex deltat i : ℕ)
    (hw : noww.length = deltat + 1)
    (hfit : startindex + i + deltat + 1 ≤ omniVar.length) :
    dist_count omniVar noww startindex deltat i =
      Real.sqrt (∑ j ∈ Finset.range (deltat + 1),
        (noww.getD j 0 - omniVar.getD (startindex + i + j) 0) ^ 2)
        / ((deltat + 1 : ℕ) : ℝ) := by
  unfold dist_count
  have hslice : (npSlice omniVar (startindex + i) (startindex + i + deltat + 1)).length
      = deltat + 1 := by
    rw [npSlice_length]
    omega
  rw [sum_sq_zip_eq, hw, hslice, Nat.min_self]
  have harg : ∀ j ∈ Finset.range (deltat + 1),
      (noww.getD j 0
        - (npSlice omniVar (startindex + i) (startindex + i + deltat + 1)).getD j 0) ^ 2
      = (noww.getD j 0 - omniVar.getD (startindex + i + j) 0) ^ 2 := by
    intro j hj
    have hjlt : j < deltat + 1 := Finset.mem_range.mp hj
    rw [npSlice_getD omniVar (startindex + i) (startindex + i + deltat + 1) j 0 (by omega)]
  rw [Finset.sum_congr rfl harg]

theorem c1_amended_witness :
    dist_count [0, 0] [0, 3] 0 1 0 =
      Real.sqrt (∑ j ∈ Finset.range (1 + 1),
        (([0, 3] : List ℝ).getD j 0 - ([0, 0] : List ℝ).getD (0 + 0 + j) 0) ^ 2)
        / ((1 + 1 : ℕ) : ℝ) :=
  c1_amended_dist_formula [0, 0] [0, 3] 0 1 0 rfl (by norm_num)

/-! ## Lemmas for the NaN claims -/

theorem fadd_none_right (x : Option ℝ) : fadd x none = none := by
  cases x <;> rfl

theorem fsum_eq_none_of_mem {l : List (Option ℝ)} (h : none ∈ l) : fsum l = none := by
  induction l with
  | nil => simp at h
  | cons a l ih =>
    rcases List.mem_cons.mp h with h1 | h2
    · cases h1
      rfl
    · rw [show fsum (a :: l) = fadd a (fsum l) from rfl, ih h2, fadd_none_right]

/-- C9 counterexample: for the now window [1, NaN] against the historical
window [1, 2], the computed distance is NaN (the NaN sample is not excluded
and poisons the sum), while the claimed NaN-excluding computation over the
single valid pair yields sqrt(0/1) = 0. -/
theorem c9_counterexample :
    dist_count_nan [some 1, some 2] [some 1, none] 0 1 0 ≠
      nanExcludedRms [some 1, none] (npSlice [some 1, some 2] 0 2) := by
  intro hc
  have h1 : dist_count_nan [some 1, some 2] [some 1, none] 0 1 0 = none := rfl
  have h2 : nanExcludedRms [some 1, none] (npSlice [some 1, some 2] 0 2)
      = some (Real.sqrt ((((1:ℝ) - 1) ^ 2 + 0) / ((1:ℕ) : ℝ))) := rfl
  rw [h1, h2] at hc
  exact Option.noConfusion hc

/-- C9 amended: NaN samples are not excluded from the sliding-window
distance computation: whenever any paired sample of the now window or the
historical window is NaN, the distance value for that start index is NaN
(the source keeps only the minimum distance value NaN-safe via np.nanmin;
the distance entries themselves are poisoned). -/
theorem c9_amended_nan_poisons (omniVar noww : List (Option ℝ))
    (startindex deltat i : ℕ)
    (h : ∃ q ∈ noww.zip (npSlice omniVar (startindex + i) (startindex + i + deltat + 1)),
      q.1 = none ∨ q.2 = none) :
    dist_count_nan omniVar noww startindex deltat i = none := by
  obtain ⟨q, hq, hcase⟩ := h
  have hnone : fsq (fsub q.1 q.2) = none := by
    rcases hcase with h1 | h2
    · rw [h1]
      cases q.2 <;> rfl
    · rw [h2]
      cases q.1 <;> rfl
  have hmem : none ∈ (noww.zip
      (npSlice omniVar (startindex + i) (startindex + i + deltat + 1))).map
        (fun p => fsq (fsub p.1 p.2)) := by
    have hm := List.mem_map_of_mem (fun p => fsq (fsub p.1 p.2)) hq
    simpa [hnone] using hm
  unfold dist_count_nan
  rw [fsum_eq_none_of_mem hmem]
  rfl

theorem c9_amended_witness :
    (∃ q ∈ ([some 1, none] : List (Option ℝ)).zip
        (npSlice ([some 1, some 2] : List (Option ℝ)) (0 + 0) (0 + 0 + 1 + 1)),
      q.1 = none ∨ q.2 = none) ∧
    dist_count_nan [some 1, some 2] [some 1, none] 0 1 0 = none := by
  have hex : ∃ q ∈ ([some 1, none] : List (Option ℝ)).zip
      (npSlice ([some 1, some 2] : List (Option ℝ)) (0 + 0) (0 + 0 + 1 + 1)),
      q.1 = none ∨ q.2 = none := by
    refine ⟨((none, some 2) : Option ℝ × Option ℝ), ?_, Or.inl rfl⟩
    exact List.mem_cons_of_mem _ (List.mem_cons_self _ _)
  exact ⟨hex, c9_amended_nan_poisons [some 1, some 2] [some 1, none] 0 1 0 hex⟩

/-! ## Lemmas for the radial correction claim -/

theorem getD_set_ne {α : Type} (l : List α) (i j : ℕ) (a d : α) (h : i ≠ j) :
    (l.set i a).getD j d = l.getD j d := by
  rw [List.getD_eq_getD_get?, List.getD_eq_getD_get?, List.get?_eq_getElem?,
    List.get?_eq_getElem?, List.getElem?_set_ne h]

theorem getD_set_self {α : Type} (l : List α) (i : ℕ) (a d : α) (h : i < l.length) :
    (l.set i a).getD i d = a := by
  rw [List.getD_eq_getD_get?, List.get?_eq_getElem?, List.getElem?_set_self h]
  rfl

theorem keyIndex_inj : ∀ k1 ∈ defaultKeys, ∀ k2 ∈ defaultKeys,
    keyIndex k1 = keyIndex k2 → k1 = k2 := by decide

theorem keyIndex_lt : ∀ k ∈ defaultKeys, keyIndex k < 18 := by decide

theorem shiftVarList_sub_defaultKeys : ∀ v ∈ shiftVarList, v ∈ defaultKeys := by decide

theorem shiftVarList_nodup : shiftVarList.Nodup := by decide

theorem row_set_of_ne {α : Type} (d : SatData α) (v k : String) (val : List α)
    (hv : v ∈ defaultKeys) (hk : k ∈ defaultKeys) (hne : k ≠ v) :
    ({ d with data := d.data.set (keyIndex v) val } : SatData α).row k = d.row k := by
  unfold SatData.row
  exact getD_set_ne _ _ _ _ _ (fun hEq => hne (keyIndex_inj k hk v hv hEq.symm))

theorem row_set_self {α : Type} (d : SatData α) (v : String) (val : List α)
    (hv : v ∈ defaultKeys) (hlen : d.data.length = 18) :
    ({ d with data := d.data.set (keyIndex v) val } : SatData α).row v = val := by
  unfold SatData.row
  exact getD_set_self _ _ _ _ (by rw [hlen]; exact keyIndex_lt v hv)

theorem shiftWind_fold_spec (corr : List ℚ) :
    ∀ (vs : List String) (d : SatData ℚ),
      (∀ v ∈ vs, v ∈ d.vars) → (∀ v ∈ vs, v ∈ defaultKeys) → vs.Nodup →
      d.data.length = 18 →
      ∃ d2, List.foldlM (shiftWindStep corr) d vs = .ok d2 ∧
        d2.vars = d.vars ∧ d2.h = d.h ∧ d2.pos = d.pos ∧ d2.data.length = 18 ∧
        ∀ k, k ∈ defaultKeys →
          d2.row k = (if k ∈ vs then List.zipWith (fun a c => a * c) (d.row k) corr
                      else d.row k)
  | [], d, _, _, _, hlen => ⟨d, rfl, rfl, rfl, rfl, hlen, fun k _ => by simp⟩
  | v :: vs, d, hvars, hkeys, hnd, hlen => by
    have hv : v ∈ d.vars := hvars v (List.mem_cons_self v vs)
    have hvk : v ∈ defaultKeys := hkeys v (List.mem_cons_self v vs)
    have hgi : d.getitem v = .ok (d.row v) := by
      unfold SatData.getitem
      rw [if_pos (List.mem_append_left _ hv)]
    set val := List.zipWith (fun a c => a * c) (d.row v) corr with hval
    have hsi : d.setitem v val = .ok { d with data := d.data.set (keyIndex v) val } := by
      unfold SatData.setitem
      rw [if_pos hv]
    set d1 : SatData ℚ := { d with data := d.data.set (keyIndex v) val } with hd1
    have hstep : shiftWindStep corr d v = .ok d1 := by
      unfold shiftWindStep
      rw [hgi]
      exact hsi
    have hvars1 : ∀ w ∈ vs, w ∈ d1.vars := fun w hw =>
      hvars w (List.mem_cons_of_mem _ hw)
    have hlen1 : d1.data.length = 18 := by
      rw [hd1]
      simpa [List.length_set] using hlen
    obtain ⟨d2, hfold, hvars2, hh2, hpos2, hlen2, hrow2⟩ :=
      shiftWind_fold_spec corr vs d1 hvars1
        (fun w hw => hkeys w (List.mem_cons_of_mem _ hw))
        (List.nodup_cons.mp hnd).2 hlen1
    refine ⟨d2, ?_, hvars2, hh2, hpos2, hlen2, ?_⟩
    · rw [List.foldlM_cons, hstep]
      exact hfold
    · intro k hk
      by_cases hkv : k = v
      · subst hkv
        have hknotvs : k ∉ vs := (List.nodup_cons.mp hnd).1
        rw [hrow2 k hk, if_neg hknotvs, if_pos (List.mem_cons_self k vs)]
        exact row_set_self d k val hvk hlen
      · have hrowd1 : d1.row k = d.row k :=
          row_set_of_ne d v k val hvk hk hkv
        rw [hrow2 k hk]
        by_cases hkvs : k ∈ vs
        · rw [if_pos hkvs, if_pos (List.mem_cons_of_mem _ hkvs), hrowd1]
        · rw [if_neg hkvs, if_neg (by simp [List.mem_cons, hkv, hkvs]), hrowd1]

theorem shift_wind_to_L1_pos_eq (l1r : List ℚ) (d : SatData ℚ) (p : PositionData ℚ)
    (hpos : d.pos = some p) :
    shift_wind_to_L1 l1r d = (do
      let rRow ← p.getitem "r"
      let corr := List.zipWith (fun a b => (a / b) ^ (-2 : ℤ)) l1r rRow
      (shiftVarList.filter (fun v => d.vars.contains v)).foldlM (shiftWindStep corr) d) := by
  unfold shift_wind_to_L1
  rw [hpos]

/-- C7: shift_wind_to_L1 multiplies, per sample, each of btot, br, bt, bn,
bx, by, bz and density that is present among the active variables by the
factor (L1 distance / monitor distance)^(-2), and leaves every other
variable row (in particular speed) unchanged. -/
theorem c7_radial_correction (l1r : List ℚ) (d : SatData ℚ) (p : PositionData ℚ)
    (rRow : List ℚ) (hpos : d.pos = some p) (hr : p.getitem "r" = .ok rRow)
    (hlen : d.data.length = 18) :
    ∃ d2, shift_wind_to_L1 l1r d = .ok d2 ∧
      d2.vars = d.vars ∧
      (∀ k ∈ shiftVarList, k ∈ d.vars →
        d2.row k = List.zipWith (fun a c => a * c) (d.row k)
          (List.zipWith (fun a b => (a / b) ^ (-2 : ℤ)) l1r rRow)) ∧
      (∀ k ∈ defaultKeys, k ∉ shiftVarList → d2.row k = d.row k) := by
  rw [shift_wind_to_L1_pos_eq l1r d p hpos, hr]
  set vs := shiftVarList.filter (fun v => d.vars.contains v) with hvs
  have hsub : ∀ v ∈ vs, v ∈ d.vars := by
    intro v hvmem
    rw [hvs] at hvmem
    have hcont := List.of_mem_filter hvmem
    exact List.elem_iff.mp hcont
  have hkeys : ∀ v ∈ vs, v ∈ defaultKeys := fun v hvmem =>
    shiftVarList_sub_defaultKeys v (List.mem_of_mem_filter hvmem)
  have hnd : vs.Nodup := shiftVarList_nodup.filter _
  obtain ⟨d2, hfold, hvars2, _, _, _, hrow2⟩ :=
    shiftWind_fold_spec (List.zipWith (fun a b => (a / b) ^ (-2 : ℤ)) l1r rRow)
      vs d hsub hkeys hnd hlen
  refine ⟨d2, hfold, hvars2, ?_, ?_⟩
  · intro k hk hkvars
    rw [hrow2 k (shiftVarList_sub_defaultKeys k hk),
      if_pos (List.mem_filter_of_mem hk (List.elem_iff.mpr hkvars))]
  · intro k hk hknot
    rw [hrow2 k hk, if_neg (fun hmem => hknot (List.mem_of_mem_filter hmem))]

theorem c7_witness :
    (match shift_wind_to_L1 [1, 1] dWindEx with
     | .ok d2 => d2.row "density" = [40, 40] ∧ d2.row "speed" = [400, 400]
     | .error _ => False) := by
  obtain ⟨d2, hok, hvars, hshift, hother⟩ :=
    c7_radial_correction [1, 1] dWindEx
      (fromInitPos (PositionData.init [[2, 2], [0, 0], [0, 0]] "rlonlat"))
      [2, 2] rfl rfl rfl
  rw [hok]
  show d2.row "density" = [40, 40] ∧ d2.row "speed" = [400, 400]
  constructor
  · rw [hshift "density" (by decide) (by decide)]
    show List.zipWith (fun a c => a * c) [10, 10]
      (List.zipWith (fun a b => (a / b) ^ (-2 : ℤ)) [1, 1] [2, 2]) = [40, 40]
    norm_num
  · rw [hother "speed" (by decide) (by decide)]
    rfl

set_option maxHeartbeats 4000000 in
/-- C8: evaluation of merge_Data on the spec example (A hourly at hours
0..10, B hourly at hours 5..20, equal values, sampling rate 1 hour): the
merged container has 19 samples with time axis 0..18, although the
continuation grid counted by the source itself (np.arange from 11 up to,
exclusively, 20) has 9 points: np.arange(1, n_timesteps) drops one point,
so the result stops two steps short of the last sample of B instead of one. -/
theorem c8_merge_continuation_count :
    ((merge_Data mergeA mergeB none).toOption.map (fun m => m.row "time"))
        = some [0, 1, 2, 3, 4, 5, 6, 7, 8, 9, 10, 11, 12, 13, 14, 15, 16, 17, 18] ∧
    ((merge_Data mergeA mergeB none).toOption.map (fun m => m.length)) = some 19 ∧
    (npArange (10 + 1) 20 1).length = 9 := by
  refine ⟨?_, ?_, ?_⟩
  · norm_num +decide [merge_Data, mergeA, mergeB, fromInit, SatData.init, SatData.getitem,
      SatData.row, SatData.setitem, npArange, npInterp, keyIndex, listIdxOf, defaultKeys,
      dictLookup, List.filter, List.getD, List.mapM.loop, List.getLast?, Rat.ceil,
      bind, Except.bind, Except.instMonad, pure, Except.pure, Functor.map, Except.map,
      Except.toOption, List.getLast, List.range', List.flatMap, List.singleton,
      Int.toNat, List.sum]
  · norm_num +decide [merge_Data, mergeA, mergeB, fromInit, SatData.init, SatData.getitem,
      SatData.row, SatData.length, SatData.setitem, npArange, npInterp, keyIndex,
      listIdxOf, defaultKeys, dictLookup, List.filter, List.getD, List.mapM.loop,
      List.getLast?, Rat.ceil, bind, Except.bind, Except.instMonad, pure, Except.pure,
      Functor.map, Except.map, Except.toOption, List.getLast, List.range', List.flatMap,
      List.singleton, Int.toNat, List.sum]
  · norm_num [npArange, Rat.ceil, Function.comp_def]
    rfl

/-! ## Norm preservation of the per-sample frame transforms -/

theorem normSq_flip_xy (v : Vec3) : (⟨-v.x, -v.y, v.z⟩ : Vec3).normSq = v.normSq := by
  simp [Vec3.normSq]

theorem normSq_gseToGsmSample (jd ut : ℝ) (b : Vec3) :
    (gseToGsmSample jd ut b).normSq = b.normSq := by
  simp only [gseToGsmSample]
  rw [normSq_rotXmul]

theorem normSq_heeqToGseSample (jd ut : ℝ) (b : Vec3) :
    (heeqToGseSample jd ut b).normSq = b.normSq := by
  simp only [heeqToGseSample]
  rw [normSq_flip_xy, normSq_rotZmul, normSq_rotZmul, normSq_rotXmul, normSq_rotZmul]

theorem normSq_rtnToHeeqSample (p b : Vec3) (hs : p.x ^ 2 + p.y ^ 2 ≠ 0) :
    (rtnToHeeqSample p b).normSq = b.normSq := by
  have hsq : 0 < p.x ^ 2 + p.y ^ 2 := lt_of_le_of_ne (by positivity) (Ne.symm hs)
  have hP : 0 < p.normSq := by
    have hz := sq_nonneg p.z
    simp only [Vec3.normSq]
    nlinarith
  have hNpos : 0 < p.norm := Real.sqrt_pos.mpr hP
  have hNne : p.norm ≠ 0 := ne_of_gt hNpos
  have hN2 : p.norm ^ 2 = p.x ^ 2 + p.y ^ 2 + p.z ^ 2 := by
    rw [Vec3.norm, Real.sq_sqrt hP.le]
    rfl
  simp only [rtnToHeeqSample]
  set N := p.norm with hNdef
  have hSsq : (Vec3.cross ⟨0, 0, 1⟩ (p.sdiv N)).normSq = (p.x ^ 2 + p.y ^ 2) / N ^ 2 := by
    simp only [Vec3.cross, Vec3.sdiv, Vec3.normSq]
    field_simp
    ring
  have hSnormSqpos : 0 < (Vec3.cross ⟨0, 0, 1⟩ (p.sdiv N)).normSq := by
    rw [hSsq]
    exact div_pos hsq (by positivity)
  have hSpos : 0 < (Vec3.cross ⟨0, 0, 1⟩ (p.sdiv N)).norm :=
    Real.sqrt_pos.mpr hSnormSqpos
  have hS2 : (Vec3.cross ⟨0, 0, 1⟩ (p.sdiv N)).norm ^ 2 = (p.x ^ 2 + p.y ^ 2) / N ^ 2 := by
    rw [Vec3.norm, Real.sq_sqrt hSnormSqpos.le, hSsq]
  set S := (Vec3.cross ⟨0, 0, 1⟩ (p.sdiv N)).norm with hSdef
  have hSne : S ≠ 0 := ne_of_gt hSpos
  have hS2m : S ^ 2 * N ^ 2 = p.x ^ 2 + p.y ^ 2 := by
    rw [hS2]
    field_simp
  have hcXY : Vec3.cross (p.sdiv N) ((Vec3.cross ⟨0, 0, 1⟩ (p.sdiv N)).sdiv S) =
      (⟨-(p.z * p.x) / (N ^ 2 * S), -(p.z * p.y) / (N ^ 2 * S),
        (p.x ^ 2 + p.y ^ 2) / (N ^ 2 * S)⟩ : Vec3) := by
    simp only [Vec3.cross, Vec3.sdiv, Vec3.mk.injEq]
    refine ⟨?_, ?_, ?_⟩ <;> (field_simp; try ring) <;> tauto
  have hTsq : (Vec3.cross (p.sdiv N) ((Vec3.cross ⟨0, 0, 1⟩ (p.sdiv N)).sdiv S)).normSq = 1 := by
    rw [hcXY]
    simp only [Vec3.normSq]
    field_simp
    linear_combination (-(p.x ^ 2 + p.y ^ 2)) * hN2 - N ^ 2 * hS2m
  have hTnorm : (Vec3.cross (p.sdiv N) ((Vec3.cross ⟨0, 0, 1⟩ (p.sdiv N)).sdiv S)).norm = 1 := by
    rw [Vec3.norm, hTsq, Real.sqrt_one]
  rw [hTnorm]
  have hXX : (p.sdiv N).dot (p.sdiv N) = 1 := by
    simp only [Vec3.dot, Vec3.sdiv]
    field_simp
    linear_combination -hN2
  have hYY : ((Vec3.cross ⟨0, 0, 1⟩ (p.sdiv N)).sdiv S).dot
      ((Vec3.cross ⟨0, 0, 1⟩ (p.sdiv N)).sdiv S) = 1 := by
    simp only [Vec3.cross, Vec3.sdiv, Vec3.dot]
    field_simp
    linear_combination -hS2m
  have hZZ : ((Vec3.cross (p.sdiv N) ((Vec3.cross ⟨0, 0, 1⟩ (p.sdiv N)).sdiv S)).sdiv 1).dot
      ((Vec3.cross (p.sdiv N) ((Vec3.cross ⟨0, 0, 1⟩ (p.sdiv N)).sdiv S)).sdiv 1) = 1 := by
    have h1 := hTsq
    simp only [Vec3.cross, Vec3.sdiv, Vec3.normSq] at h1
    simp only [Vec3.cross, Vec3.sdiv, Vec3.dot, div_one]
    linear_combination h1
  have hXY : (p.sdiv N).dot ((Vec3.cross ⟨0, 0, 1⟩ (p.sdiv N)).sdiv S) = 0 := by
    simp only [Vec3.cross, Vec3.sdiv, Vec3.dot]
    field_simp
    ring
  have hXZ : (p.sdiv N).dot
      ((Vec3.cross (p.sdiv N) ((Vec3.cross ⟨0, 0, 1⟩ (p.sdiv N)).sdiv S)).sdiv 1) = 0 := by
    simp only [Vec3.cross, Vec3.sdiv, Vec3.dot, div_one]
    field_simp
    ring
  have hYZ : ((Vec3.cross ⟨0, 0, 1⟩ (p.sdiv N)).sdiv S).dot
      ((Vec3.cross (p.sdiv N) ((Vec3.cross ⟨0, 0, 1⟩ (p.sdiv N)).sdiv S)).sdiv 1) = 0 := by
    simp only [Vec3.cross, Vec3.sdiv, Vec3.dot, div_one]
    field_simp
    ring
  rw [normSq_basis_comb _ _ _ _ _ _ hXX hYY hZZ hXY hXZ hYZ]
  rfl

theorem getD_map_range {α : Type} (f : ℕ → α) (n i : ℕ) (h : i < n) (d : α) :
    ((List.range n).map f).getD i d = f i := by
  rw [List.getD_eq_getElem _ _ (by simpa using h)]
  simp

theorem convert_GSE_to_GSM_ok_mag (jd ut : ℕ → ℝ) (d d2 : SatData ℝ)
    (hlen : d.data.length = 18) (hG : convert_GSE_to_GSM jd ut d = .ok d2)
    (i : ℕ) (hi : i < (d.row "time").length) :
    Real.sqrt (((d2.row "bx").getD i 0) ^ 2 + ((d2.row "by").getD i 0) ^ 2
        + ((d2.row "bz").getD i 0) ^ 2)
      = Real.sqrt (((d.row "bx").getD i 0) ^ 2 + ((d.row "by").getD i 0) ^ 2
        + ((d.row "bz").getD i 0) ^ 2) := by
  unfold convert_GSE_to_GSM at hG
  cases htm : d.getitem "time" with
  | error e =>
    rw [htm, bind_error_eq] at hG
    exact Except.noConfusion hG
  | ok tm =>
  obtain rfl : tm = d.row "time" := getitem_ok_row htm
  rw [htm, bind_ok_eq] at hG
  cases hbx : d.getitem "bx" with
  | error e =>
    rw [hbx, bind_error_eq] at hG
    exact Except.noConfusion hG
  | ok bxR =>
  obtain rfl : bxR = d.row "bx" := getitem_ok_row hbx
  rw [hbx, bind_ok_eq] at hG
  cases hby : d.getitem "by" with
  | error e =>
    rw [hby, bind_error_eq] at hG
    exact Except.noConfusion hG
  | ok byR =>
  obtain rfl : byR = d.row "by" := getitem_ok_row hby
  rw [hby, bind_ok_eq] at hG
  cases hbz : d.getitem "bz" with
  | error e =>
    rw [hbz, bind_error_eq] at hG
    exact Except.noConfusion hG
  | ok bzR =>
  obtain rfl : bzR = d.row "bz" := getitem_ok_row hbz
  rw [hbz, bind_ok_eq] at hG
  simp only [] at hG
  rw [setitem_defaultKey_ok d "bx" _ (by decide), bind_ok_eq] at hG
  rw [setitem_defaultKey_ok _ "by" _ (by decide), bind_ok_eq] at hG
  rw [setitem_defaultKey_ok _ "bz" _ (by decide), bind_ok_eq] at hG
  set n := (d.row "time").length with hn
  set G := (List.range n).map (fun j =>
    gseToGsmSample (jd j) (ut j)
      ⟨(d.row "bx").getD j 0, (d.row "by").getD j 0, (d.row "bz").getD j 0⟩) with hGdef
  have hdata : d2.data = ((d.data.set (keyIndex "bx") (G.map Vec3.x)).set
      (keyIndex "by") (G.map Vec3.y)).set (keyIndex "bz") (G.map Vec3.z) :=
    (congrArg SatData.data (Except.ok.inj hG)).symm
  have hbxrow : d2.row "bx" = G.map Vec3.x := by
    unfold SatData.row
    rw [hdata, getD_set_ne _ _ _ _ _ (by decide), getD_set_ne _ _ _ _ _ (by decide),
      getD_set_self _ _ _ _ (by rw [hlen]; decide)]
  have hbyrow : d2.row "by" = G.map Vec3.y := by
    unfold SatData.row
    rw [hdata, getD_set_ne _ _ _ _ _ (by decide),
      getD_set_self _ _ _ _ (by rw [List.length_set, hlen]; decide)]
  have hbzrow : d2.row "bz" = G.map Vec3.z := by
    unfold SatData.row
    rw [hdata,
      getD_set_self _ _ _ _ (by rw [List.length_set, List.length_set, hlen]; decide)]
  rw [hbxrow, hbyrow, hbzrow, hGdef, List.map_map, List.map_map, List.map_map,
    getD_map_range _ _ _ hi, getD_map_range _ _ _ hi, getD_map_range _ _ _ hi]
  simp only [Function.comp]
  have hfin := normSq_gseToGsmSample (jd i) (ut i)
    ⟨(d.row "bx").getD i 0, (d.row "by").getD i 0, (d.row "bz").getD i 0⟩
  simp only [Vec3.normSq] at hfin
  rw [hfin]

theorem convert_RTN_ok_body {posObj : List (List ℝ)} {posTnum : List ℝ}
    {jd ut : ℕ → ℝ} {d d2 : SatData ℝ}
    (hG : convert_RTN_to_GSE posObj posTnum jd ut d = .ok d2) :
    convRtnBody posObj posTnum jd ut d = .ok d2 := by
  unfold convert_RTN_to_GSE at hG
  cases posObj with
  | cons a t => exact hG
  | nil =>
    cases posTnum with
    | cons a t => exact hG
    | nil =>
      cases hpos : d.pos with
      | some p =>
        rw [hpos] at hG
        exact hG
      | none =>
        rw [hpos] at hG
        exact Except.noConfusion hG

theorem convert_RTN_to_GSE_ok_mag (posObj : List (List ℝ)) (posTnum : List ℝ)
    (jd ut : ℕ → ℝ) (d d2 : SatData ℝ)
    (hlen : d.data.length = 18) (hG : convert_RTN_to_GSE posObj posTnum jd ut d = .ok d2)
    (i : ℕ) (hi : i < (d.row "time").length)
    (hp : (rtnPosAt posObj posTnum d.pos (d.row "time") i).x ^ 2
      + (rtnPosAt posObj posTnum d.pos (d.row "time") i).y ^ 2 ≠ 0) :
    Real.sqrt (((d2.row "bx").getD i 0) ^ 2 + ((d2.row "by").getD i 0) ^ 2
        + ((d2.row "bz").getD i 0) ^ 2)
      = Real.sqrt (((d.row "br").getD i 0) ^ 2 + ((d.row "bt").getD i 0) ^ 2
        + ((d.row "bn").getD i 0) ^ 2) := by
  have hB := convert_RTN_ok_body hG
  unfold convRtnBody at hB
  cases htm : d.getitem "time" with
  | error e =>
    rw [htm, bind_error_eq] at hB
    exact Except.noConfusion hB
  | ok tm =>
  obtain rfl : tm = d.row "time" := getitem_ok_row htm
  rw [htm, bind_ok_eq] at hB
  cases hbr : d.getitem "br" with
  | error e =>
    rw [hbr, bind_error_eq] at hB
    exact Except.noConfusion hB
  | ok brR =>
  obtain rfl : brR = d.row "br" := getitem_ok_row hbr
  rw [hbr, bind_ok_eq] at hB
  cases hbt : d.getitem "bt" with
  | error e =>
    rw [hbt, bind_error_eq] at hB
    exact Except.noConfusion hB
  | ok btR =>
  obtain rfl : btR = d.row "bt" := getitem_ok_row hbt
  rw [hbt, bind_ok_eq] at hB
  cases hbn : d.getitem "bn" with
  | error e =>
    rw [hbn, bind_error_eq] at hB
    exact Except.noConfusion hB
  | ok bnR =>
  obtain rfl : bnR = d.row "bn" := getitem_ok_row hbn
  rw [hbn, bind_ok_eq] at hB
  simp only [] at hB
  rw [setitem_defaultKey_ok d "bx" _ (by decide), bind_ok_eq] at hB
  rw [setitem_defaultKey_ok _ "by" _ (by decide), bind_ok_eq] at hB
  rw [setitem_defaultKey_ok _ "bz" _ (by decide), bind_ok_eq] at hB
  set n := (d.row "time").length with hn
  set G := (List.range n).map (fun j =>
    heeqToGseSample (jd j) (ut j)
      (rtnToHeeqSample (rtnPosAt posObj posTnum d.pos (d.row "time") j)
        ⟨(d.row "br").getD j 0, (d.row "bt").getD j 0, (d.row "bn").getD j 0⟩)) with hGdef
  have hdata : d2.data = ((d.data.set (keyIndex "bx") (G.map Vec3.x)).set
      (keyIndex "by") (G.map Vec3.y)).set (keyIndex "bz") (G.map Vec3.z) :=
    (congrArg SatData.data (Except.ok.inj hB)).symm
  have hbxrow : d2.row "bx" = G.map Vec3.x := by
    unfold SatData.row
    rw [hdata, getD_set_ne _ _ _ _ _ (by decide), getD_set_ne _ _ _ _ _ (by decide),
      getD_set_self _ _ _ _ (by rw [hlen]; decide)]
  have hbyrow : d2.row "by" = G.map Vec3.y := by
    unfold SatData.row
    rw [hdata, getD_set_ne _ _ _ _ _ (by decide),
      getD_set_self _ _ _ _ (by rw [List.length_set, hlen]; decide)]
  have hbzrow : d2.row "bz" = G.map Vec3.z := by
    unfold SatData.row
    rw [hdata,
      getD_set_self _ _ _ _ (by rw [List.length_set, List.length_set, hlen]; decide)]
  rw [hbxrow, hbyrow, hbzrow, hGdef, List.map_map, List.map_map, List.map_map,
    getD_map_range _ _ _ hi, getD_map_range _ _ _ hi, getD_map_range _ _ _ hi]
  simp only [Function.comp]
  have hsample : (heeqToGseSample (jd i) (ut i)
      (rtnToHeeqSample (rtnPosAt posObj posTnum d.pos (d.row "time") i)
        ⟨(d.row "br").getD i 0, (d.row "bt").getD i 0, (d.row "bn").getD i 0⟩)).normSq
      = ((⟨(d.row "br").getD i 0, (d.row "bt").getD i 0, (d.row "bn").getD i 0⟩ : Vec3)).normSq := by
    rw [normSq_heeqToGseSample]
    exact normSq_rtnToHeeqSample _ _ hp
  simp only [Vec3.normSq] at hsample
  rw [hsample]

/-- C2: under real arithmetic both frame conversions preserve the per-sample
vector magnitude: convert_GSE_to_GSM leaves sqrt(bx^2+by^2+bz^2) unchanged
at every sample (its per-sample transform is an x-axis rotation), and
convert_RTN_to_GSE carries sqrt(br^2+bt^2+bn^2) into sqrt(bx^2+by^2+bz^2)
at every sample whose spacecraft position is not on the solar rotation axis
(the RTN basis construction is orthonormal exactly when the position has a
nonzero projection onto the solar equatorial plane; all later per-timestamp
transforms are z/x-axis rotations and a double sign flip). -/
theorem c2_conversions_preserve_magnitude :
    (∀ (jd ut : ℕ → ℝ) (d d2 : SatData ℝ), d.data.length = 18 →
      convert_GSE_to_GSM jd ut d = .ok d2 →
      ∀ i, i < (d.row "time").length →
        Real.sqrt (((d2.row "bx").getD i 0) ^ 2 + ((d2.row "by").getD i 0) ^ 2
            + ((d2.row "bz").getD i 0) ^ 2)
          = Real.sqrt (((d.row "bx").getD i 0) ^ 2 + ((d.row "by").getD i 0) ^ 2
            + ((d.row "bz").getD i 0) ^ 2)) ∧
    (∀ (posObj : List (List ℝ)) (posTnum : List ℝ) (jd ut : ℕ → ℝ) (d d2 : SatData ℝ),
      d.data.length = 18 →
      convert_RTN_to_GSE posObj posTnum jd ut d = .ok d2 →
      ∀ i, i < (d.row "time").length →
        (rtnPosAt posObj posTnum d.pos (d.row "time") i).x ^ 2
          + (rtnPosAt posObj posTnum d.pos (d.row "time") i).y ^ 2 ≠ 0 →
        Real.sqrt (((d2.row "bx").getD i 0) ^ 2 + ((d2.row "by").getD i 0) ^ 2
            + ((d2.row "bz").getD i 0) ^ 2)
          = Real.sqrt (((d.row "br").getD i 0) ^ 2 + ((d.row "bt").getD i 0) ^ 2
            + ((d.row "bn").getD i 0) ^ 2)) :=
  ⟨fun jd ut d d2 hlen hG i hi => convert_GSE_to_GSM_ok_mag jd ut d d2 hlen hG i hi,
   fun posObj posTnum jd ut d d2 hlen hG i hi hp =>
     convert_RTN_to_GSE_ok_mag posObj posTnum jd ut d d2 hlen hG i hi hp⟩

theorem c2_witness :
    dGseEx.data.length = 18 ∧
    convert_GSE_to_GSM (fun _ => 2450000.6) (fun _ => 12) dGseEx = .ok dGseGsmEx ∧
    Real.sqrt (((dGseGsmEx.row "bx").getD 0 0) ^ 2 + ((dGseGsmEx.row "by").getD 0 0) ^ 2
        + ((dGseGsmEx.row "bz").getD 0 0) ^ 2)
      = Real.sqrt ((3:ℝ) ^ 2 + 4 ^ 2 + 0 ^ 2) ∧
    convert_RTN_to_GSE [] [] (fun _ => 2450000.6) (fun _ => 12) dRtnEx = .ok dRtnGseEx ∧
    Real.sqrt (((dRtnGseEx.row "bx").getD 0 0) ^ 2 + ((dRtnGseEx.row "by").getD 0 0) ^ 2
        + ((dRtnGseEx.row "bz").getD 0 0) ^ 2)
      = Real.sqrt ((3:ℝ) ^ 2 + 4 ^ 2 + 0 ^ 2) := by
  refine ⟨rfl, rfl, ?_, rfl, ?_⟩
  · exact c2_conversions_preserve_magnitude.1 (fun _ => 2450000.6) (fun _ => 12)
      dGseEx dGseGsmEx rfl rfl 0 (by decide)
  · have hpt : rtnPosAt [] [] dRtnEx.pos (dRtnEx.row "time") 0 =
        (⟨1 * Real.cos 0 * Real.cos 0 / AU, 1 * Real.cos 0 * Real.sin 0 / AU,
          1 * Real.sin 0 / AU⟩ : Vec3) := rfl
    have hp : (rtnPosAt [] [] dRtnEx.pos (dRtnEx.row "time") 0).x ^ 2
        + (rtnPosAt [] [] dRtnEx.pos (dRtnEx.row "time") 0).y ^ 2 ≠ 0 := by
      rw [hpt]
      norm_num [AU]
    exact c2_conversions_preserve_magnitude.2 [] [] (fun _ => 2450000.6) (fun _ => 12)
      dRtnEx dRtnGseEx rfl rfl 0 (by decide) hp
